import Mathlib

/-!
# Shallow embedding of the revenue-api service (src/main.py and friends)

Each definition below mirrors one Python function or SQL statement of the
repository.  Database tables are embedded as Lean lists of row structures,
an HTTP error is a status code plus detail string (mirroring FastAPI's
`HTTPException`), and every handler is a pure function from the relevant
state to a result together with the successor state.  Nondeterministic
inputs of the real system (the current date, fresh random tokens, the
client IP, the clock) are passed in as explicit parameters.
-/

namespace RevenueApi

/-- FastAPI `HTTPException`: status code plus detail string. -/
structure HTTPError where
  status_code : Nat
  detail : String
deriving Repr, DecidableEq

/-- One row of the `api_keys` table (src/init_db.py). -/
structure ApiKeyRow where
  api_key : String
  tier : String
  customer_email : String
  daily_limit : Int
  monthly_limit : Int
  subscription_status : String
deriving Repr, DecidableEq

/-- One row of the `api_usage_log` table; `created_date` is `date(created_at)`. -/
structure UsageRow where
  api_key : String
  endpoint : String
  response_time_ms : Int
  status_code : Int
  created_date : String
deriving Repr, DecidableEq

/-- Result dict of `get_key_info` (src/main.py:61-72). -/
structure KeyInfo where
  tier : String
  name : String
  daily_limit : Int
deriving Repr, DecidableEq

/-- `get_key_info` (src/main.py:61-72): the SQL
`SELECT ... FROM api_keys WHERE api_key = ? AND subscription_status = 'active'`
returns the first row matching both conditions, or `None`. -/
def get_key_info (keys : List ApiKeyRow) (api_key : String) : Option KeyInfo :=
  match keys.find? (fun r => r.api_key == api_key && r.subscription_status == "active") with
  | some r => some { tier := r.tier, name := r.customer_email, daily_limit := r.daily_limit }
  | none => none

/-- The count computed by `check_rate_limit`'s SQL
`SELECT COUNT(*) FROM api_usage_log WHERE api_key = ? AND date(created_at) = ?`. -/
def usageCountToday (usage : List UsageRow) (api_key : String) (today : String) : Nat :=
  (usage.filter (fun u => u.api_key == api_key && u.created_date == today)).length

/-- `check_rate_limit` (src/main.py:75-87): count today's usage rows for the key
and compare against the limit; `true` means "under the limit, allowed". -/
def check_rate_limit (usage : List UsageRow) (today : String) (api_key : String)
    (limit : Int) : Bool :=
  (usageCountToday usage api_key today : Int) < limit

/-- `get_auth` (src/main.py:90-99).  `x_api_key = none` or `some ""` is Python-falsy
and yields 401; an unknown or non-active key yields 403; a key at or over its
daily limit yields 429; otherwise the key info is returned. -/
def get_auth (keys : List ApiKeyRow) (usage : List UsageRow) (today : String)
    (x_api_key : Option String) : Except HTTPError KeyInfo :=
  match x_api_key with
  | none => .error ⟨401, "Missing X-API-Key header"⟩
  | some k =>
    if k == "" then .error ⟨401, "Missing X-API-Key header"⟩
    else
      match get_key_info keys k with
      | none => .error ⟨403, "Invalid API key"⟩
      | some info =>
        if check_rate_limit usage today k info.daily_limit then .ok info
        else .error ⟨429, "Rate limit exceeded"⟩

/-! ## Self-registration (src/main.py:444-484, 102, 206-221) -/

/-- Characters allowed by `EMAIL_RE`'s `[a-zA-Z0-9._%+-]` local-part class. -/
def isLocalChar (c : Char) : Bool :=
  c.isAlpha || c.isDigit || c == '.' || c == '_' || c == '%' || c == '+' || c == '-'

/-- Characters allowed by `EMAIL_RE`'s `[a-zA-Z0-9.-]` domain class. -/
def isDomainChar (c : Char) : Bool :=
  c.isAlpha || c.isDigit || c == '.' || c == '-'

/-- `[a-zA-Z]{2,}` anchored to the end of the string. -/
def tldOk (cs : List Char) : Bool :=
  decide (2 ≤ cs.length) && cs.all (fun c => c.isAlpha)

/-- Acceptance of `[a-zA-Z0-9.-]+\.[a-zA-Z]{2,}$`: some dot splits the input
into a nonempty domain-char prefix and an all-alphabetic suffix of length ≥ 2. -/
def domainAccept (cs : List Char) : Bool :=
  (List.range cs.length).any (fun i =>
    decide (1 ≤ i) && cs.getD i ' ' == '.' && (cs.take i).all isDomainChar &&
      tldOk (cs.drop (i + 1)))

/-- Acceptance of the anchored pattern body of `EMAIL_RE` (src/main.py:102):
`[a-zA-Z0-9._%+-]+@[a-zA-Z0-9.-]+\.[a-zA-Z]{2,}`. -/
def email_core (cs : List Char) : Bool :=
  (List.range cs.length).any (fun i =>
    decide (1 ≤ i) && cs.getD i ' ' == '@' && (cs.take i).all isLocalChar &&
      domainAccept (cs.drop (i + 1)))

/-- `EMAIL_RE.match(s)` as a Bool: Python's `$` also matches just before one
final newline, so a trailing `\n` is tolerated. -/
def email_match (s : String) : Bool :=
  email_core s.data ||
    (s.data.getLast? == some '\n' && email_core s.data.dropLast)

/-- `MAX_REGISTRATIONS_PER_IP` (src/main.py:208). -/
def MAX_REGISTRATIONS_PER_IP : Nat := 3

/-- `REGISTRATION_WINDOW_SECONDS` (src/main.py:209). -/
def REGISTRATION_WINDOW_SECONDS : Nat := 3600

/-- The in-memory `_registration_attempts` dict: source IP to timestamp list. -/
def RegMap : Type := List (String × List Nat)

/-- Python dict assignment `d[ip] = v` on an association list with unique keys. -/
def setEntry : List (String × List Nat) → String → List Nat → List (String × List Nat)
  | [], ip, v => [(ip, v)]
  | (k, w) :: rest, ip, v =>
    if k == ip then (k, v) :: rest else (k, w) :: setEntry rest ip v

/-- The list comprehension dropping entries older than the window
(src/main.py:217); timestamps are naturals, `now - t` truncates like the
Python float difference stays below the window for future stamps. -/
def pruneWindow (now : Nat) (ts : List Nat) : List Nat :=
  ts.filter (fun t => now - t < REGISTRATION_WINDOW_SECONDS)

/-- `check_registration_rate` (src/main.py:212-221): prune the IP's window,
refuse at `MAX_REGISTRATIONS_PER_IP` entries, otherwise record `now`.  Returns
the verdict together with the mutated attempts dict. -/
def check_registration_rate (attempts : List (String × List Nat)) (now : Nat)
    (ip : String) : Bool × List (String × List Nat) :=
  let pruned := pruneWindow now ((attempts.lookup ip).getD [])
  if MAX_REGISTRATIONS_PER_IP ≤ pruned.length then
    (false, setEntry attempts ip pruned)
  else
    (true, setEntry attempts ip (pruned ++ [now]))

/-- Success body of `POST /api/register`. -/
structure RegisterOk where
  api_key : String
  tier : String
  daily_limit : Int
deriving Repr, DecidableEq

instance {ε α : Type} [DecidableEq ε] [DecidableEq α] : DecidableEq (Except ε α) :=
  fun a b =>
    match a, b with
    | .ok x, .ok y => if h : x = y then .isTrue (by rw [h]) else .isFalse (by simp [h])
    | .error x, .error y => if h : x = y then .isTrue (by rw [h]) else .isFalse (by simp [h])
    | .ok _, .error _ => .isFalse (by simp)
    | .error _, .ok _ => .isFalse (by simp)

/-- Result of one `register` call: HTTP outcome, the `api_keys` table after
the call, the registration-attempts dict after the call, and whether the key
store was touched at all (any `get_db()` connection opened). -/
structure RegOutcome where
  result : Except HTTPError RegisterOk
  keys : List ApiKeyRow
  attempts : List (String × List Nat)
  dbTouched : Bool
deriving Repr, DecidableEq

/-- `register` (src/main.py:444-484).  `now` is the wall clock, `ip` the client
address, `newKey` the freshly minted random token.  The email check runs before
any store access; the IP window is consumed before the duplicate-email lookup;
a unique-constraint collision on the insert maps to a 500. -/
def register (keys : List ApiKeyRow) (attempts : List (String × List Nat))
    (now : Nat) (email ip newKey : String) : RegOutcome :=
  if email_match email then
    let ck := check_registration_rate attempts now ip
    if ck.1 then
      if keys.any (fun r => r.customer_email == email && r.subscription_status == "active") then
        ⟨.error ⟨409,
          "An API key already exists for this email. Contact support if you need a new key."⟩,
         keys, ck.2, true⟩
      else if keys.any (fun r => r.api_key == newKey) then
        ⟨.error ⟨500, "Registration failed. Please try again."⟩, keys, ck.2, true⟩
      else
        ⟨.ok ⟨newKey, "free", 100⟩,
         keys ++ [⟨newKey, "free", email, 100, 3000, "active"⟩], ck.2, true⟩
    else
      ⟨.error ⟨429, "Too many registrations. Try again later."⟩, keys, ck.2, false⟩
  else
    ⟨.error ⟨400, "Invalid email format"⟩, keys, attempts, false⟩

/-! ## Revenue ledger (src/main.py:661-789) -/

/-- `html.escape` with `quote=True` (the default used by src/main.py):
`&`, `<`, `>`, `"` and the apostrophe (codepoint 39) are replaced. -/
def escapeChar (c : Char) : List Char :=
  if c == '&' then "&amp;".data
  else if c == '<' then "&lt;".data
  else if c == '>' then "&gt;".data
  else if c == '"' then "&quot;".data
  else if c.toNat == 39 then "&#x27;".data
  else [c]

/-- `html.escape` on a whole string. -/
def html_escape (s : String) : String :=
  ⟨(s.data.map escapeChar).flatten⟩

/-- `VALID_CATEGORIES` (src/main.py:104). -/
def VALID_CATEGORIES : List String := ["api", "product", "service", "consulting"]

/-- One row of the `revenue_streams` table (src/init_db.py). -/
structure RevenueStreamRow where
  id : Nat
  name : String
  category : String
  monthly_revenue : Rat
  potential_monthly : Rat
  growth_rate : Rat
  notes : Option String
deriving Repr, DecidableEq

/-- Request body of `POST /revenue/streams` (pydantic model `RevenueStream`). -/
structure RevenueStream where
  name : String
  category : String
  monthly_revenue : Rat
  potential_monthly : Rat
  growth_rate : Rat
  notes : Option String
deriving Repr, DecidableEq

/-- SQLite `lastrowid` for an append-only table: one more than the largest id. -/
def nextStreamId (streams : List RevenueStreamRow) : Nat :=
  (streams.map (·.id)).foldr max 0 + 1

/-- `create_revenue_stream` (src/main.py:661-686): validate the category,
HTML-escape the free-text fields (Python's `if stream.notes` treats an empty
string like `None`), append the row and return its id. -/
def create_revenue_stream (streams : List RevenueStreamRow) (s : RevenueStream) :
    Except HTTPError (Nat × List RevenueStreamRow) :=
  if s.category ∈ VALID_CATEGORIES then
    let row : RevenueStreamRow :=
      { id := nextStreamId streams
        name := html_escape s.name
        category := s.category
        monthly_revenue := s.monthly_revenue
        potential_monthly := s.potential_monthly
        growth_rate := s.growth_rate
        notes := match s.notes with
          | some n => if n == "" then none else some (html_escape n)
          | none => none }
    .ok (row.id, streams ++ [row])
  else
    .error ⟨400, "Invalid category"⟩

/-- Request body of `PUT /revenue/streams/{id}` (pydantic `RevenueStreamUpdate`). -/
structure RevenueStreamUpdate where
  monthly_revenue : Option Rat
  potential_monthly : Option Rat
  growth_rate : Option Rat
  notes : Option String
deriving Repr, DecidableEq

/-- The SET clauses of the UPDATE built in src/main.py:729-748 applied to one
row (here `update.notes is not None` keeps an empty string, unlike create). -/
def applyUpdate (u : RevenueStreamUpdate) (r : RevenueStreamRow) : RevenueStreamRow :=
  { r with
    monthly_revenue := u.monthly_revenue.getD r.monthly_revenue
    potential_monthly := u.potential_monthly.getD r.potential_monthly
    growth_rate := u.growth_rate.getD r.growth_rate
    notes := match u.notes with
      | some n => some (html_escape n)
      | none => r.notes }

/-- `update_revenue_stream` (src/main.py:723-760): at least one field required,
unknown id (rowcount 0) is 404, otherwise every row matching the id gets the
supplied fields overwritten. -/
def update_revenue_stream (streams : List RevenueStreamRow) (stream_id : Nat)
    (u : RevenueStreamUpdate) : Except HTTPError (List RevenueStreamRow) :=
  if u.monthly_revenue = none ∧ u.potential_monthly = none ∧
      u.growth_rate = none ∧ u.notes = none then
    .error ⟨400, "No fields to update"⟩
  else if streams.any (fun r => r.id == stream_id) then
    .ok (streams.map (fun r => if r.id == stream_id then applyUpdate u r else r))
  else
    .error ⟨404, "Revenue stream not found"⟩

/-- Response of `GET /revenue/summary`. -/
structure RevenueSummary where
  total_streams : Nat
  total_monthly_revenue : Rat
  total_potential_revenue : Rat
  avg_growth_rate : Rat
  revenue_gap : Rat
deriving Repr, DecidableEq

/-- `get_revenue_summary` (src/main.py:763-789): one aggregate pass —
`COUNT(*)`, `COALESCE(SUM(...), 0)` twice, `COALESCE(AVG(...), 0)`, and the
gap computed in Python as potential minus monthly. -/
def get_revenue_summary (streams : List RevenueStreamRow) : RevenueSummary :=
  let n := streams.length
  let m := (streams.map (·.monthly_revenue)).sum
  let p := (streams.map (·.potential_monthly)).sum
  let g := if n = 0 then 0 else (streams.map (·.growth_rate)).sum / (n : Rat)
  { total_streams := n
    total_monthly_revenue := m
    total_potential_revenue := p
    avg_growth_rate := g
    revenue_gap := p - m }

/-! ## Stripe webhook ingestor (src/main.py:523-600) -/

/-- The environment configuration read by `stripe_webhook`: whether both
Stripe secrets are set, and the four price identifiers. -/
structure StripeConfig where
  configured : Bool
  dashboard_price : String
  basic_price : String
  pro_price : String
  revenue_price : String
deriving Repr, DecidableEq

/-- The checkout session object of a `checkout.session.completed` event:
session id, customer email, the first line item's price id (when line items
are present) and the metadata price id fallback. -/
structure StripeSession where
  id : String
  customer_email : String
  line_item_price : Option String
  metadata_price : Option String
deriving Repr, DecidableEq

/-- A verified Stripe event: its type string and session payload. -/
structure StripeEvent where
  type : String
  session : StripeSession
deriving Repr, DecidableEq

/-- Outcome of `stripe.Webhook.construct_event`: the parsed event, a
`ValueError` on a malformed payload, or a `SignatureVerificationError`. -/
inductive VerifyResult where
  | valid (e : StripeEvent)
  | invalidPayload
  | invalidSignature
deriving Repr, DecidableEq

/-- One row of the `dashboard_subscriptions` table. -/
structure DashboardSubRow where
  customer_email : String
  price_id : String
  stripe_session_id : String
  status : String
deriving Repr, DecidableEq

/-- The database state the webhook can mutate. -/
structure WebhookState where
  api_keys : List ApiKeyRow
  dashboard_subscriptions : List DashboardSubRow
deriving Repr, DecidableEq

/-- Price-id extraction (src/main.py:550-555): prefer the line item's price id,
but an absent or Python-falsy (empty) one falls back to the event metadata. -/
def resolve_price_id (s : StripeSession) : Option String :=
  match s.line_item_price with
  | some p => if p == "" then s.metadata_price else some p
  | none => s.metadata_price

/-- The `price_to_tier` dict lookup with default `"basic"`
(src/main.py:572-577); later dict insertions win, hence the reverse order. -/
def price_to_tier (cfg : StripeConfig) (price : Option String) : String :=
  match price with
  | none => "basic"
  | some p =>
    if p == cfg.revenue_price then "revenue_api"
    else if p == cfg.pro_price then "pro"
    else if p == cfg.basic_price then "basic"
    else "basic"

/-- The `limits` dict lookup with default 1000 (src/main.py:578-579). -/
def tier_daily_limit (tier : String) : Int :=
  if tier == "basic" then 1000
  else if tier == "pro" then 10000
  else if tier == "revenue_api" then 5000
  else 1000

/-- `stripe_webhook` (src/main.py:523-600).  `key1` and `key2` are the two
tokens the handler may mint.  The first insert raises `sqlite3.IntegrityError`
exactly when `key1` collides with an existing `api_keys.api_key`; the retry in
the `except` block has no handler of its own, so a second collision propagates
out of the endpoint and FastAPI answers with a plain 500. -/
def stripe_webhook (cfg : StripeConfig) (st : WebhookState) (sig_header : Option String)
    (verify : VerifyResult) (key1 key2 : String) :
    Except HTTPError String × WebhookState :=
  if cfg.configured = false then (.error ⟨503, "Payment processing not configured"⟩, st)
  else
    match sig_header with
    | none => (.error ⟨400, "Missing signature"⟩, st)
    | some s =>
      if s == "" then (.error ⟨400, "Missing signature"⟩, st)
      else
        match verify with
        | .invalidPayload => (.error ⟨400, "Invalid payload"⟩, st)
        | .invalidSignature => (.error ⟨400, "Invalid signature"⟩, st)
        | .valid ev =>
          if ev.type == "checkout.session.completed" then
            let price := resolve_price_id ev.session
            if price == some cfg.dashboard_price then
              (.ok "dashboard_subscription_created",
               { st with dashboard_subscriptions :=
                   st.dashboard_subscriptions ++
                     [⟨ev.session.customer_email, cfg.dashboard_price,
                       ev.session.id, "active"⟩] })
            else
              let tier := price_to_tier cfg price
              let daily := tier_daily_limit tier
              if st.api_keys.any (fun r => r.api_key == key1) then
                if st.api_keys.any (fun r => r.api_key == key2) then
                  (.error ⟨500, "Internal Server Error"⟩, st)
                else
                  (.ok "received",
                   { st with api_keys := st.api_keys ++
                       [⟨key2, tier, ev.session.customer_email, daily,
                         daily * 30, "active"⟩] })
              else
                (.ok "received",
                 { st with api_keys := st.api_keys ++
                     [⟨key1, tier, ev.session.customer_email, daily,
                       daily * 30, "active"⟩] })
          else (.ok "received", st)

/-- A concrete webhook configuration for the double-collision scenario. -/
def doubleCollisionCfg : StripeConfig :=
  ⟨true, "price_d", "price_b", "price_p", "price_r"⟩

/-- A key store that already contains both tokens the mint oracle will draw. -/
def doubleCollisionState : WebhookState :=
  ⟨[⟨"k1", "basic", "a@x.co", 1000, 30000, "active"⟩,
    ⟨"k2", "basic", "b@x.co", 1000, 30000, "active"⟩], []⟩

/-- A verified checkout-completed event carrying the basic-tier price. -/
def checkoutEv : StripeEvent :=
  ⟨"checkout.session.completed", ⟨"cs_1", "c@x.co", some "price_b", none⟩⟩

/-! ## Prediction markets listing (src/main.py:905-947, src/polymarket.py:46-99) -/

/-- One row of the `polymarket_markets` table; `active` is the stored SQLite
integer flag (`1` = true, `0` = false). -/
structure MarketRow where
  id : String
  question : String
  category : String
  volume24h : Rat
  active : Int
  outcomes : Option String
  raw_data : Option String
deriving Repr, DecidableEq

/-- The WHERE clause built in src/main.py:916-925: `active = 1` when
`active_only`, an equality on category when one is supplied (a Python-falsy
empty category adds no clause). -/
def marketPred (category : Option String) (active_only : Bool) (r : MarketRow) : Bool :=
  (!active_only || r.active == 1) &&
    (match category with
     | some c => if c == "" then true else r.category == c
     | none => true)

/-- Insertion step of `ORDER BY volume24h DESC`. -/
def insertVolDesc (r : MarketRow) : List MarketRow → List MarketRow
  | [] => [r]
  | x :: xs => if x.volume24h ≤ r.volume24h then r :: x :: xs else x :: insertVolDesc r xs

/-- `ORDER BY volume24h DESC` as an insertion sort (SQLite guarantees order,
not stability; only the multiset of rows matters to the claims). -/
def sortVolDesc : List MarketRow → List MarketRow
  | [] => []
  | x :: xs => insertVolDesc x (sortVolDesc xs)

/-- `get_polymarket_markets` (src/main.py:905-947): filter, order by volume
descending, then `LIMIT min(limit, 100)` — a negative SQLite LIMIT means no
limit. -/
def get_polymarket_markets (rows : List MarketRow) (lim : Int)
    (category : Option String) (active_only : Bool) : List MarketRow :=
  let filtered := rows.filter (marketPred category active_only)
  let sorted := sortVolDesc filtered
  let n : Int := min lim 100
  if n < 0 then sorted else sorted.take n.toNat

end RevenueApi

namespace RevenueApi

/-- Dict assignment then lookup on the same key yields the assigned value. -/
theorem setEntry_lookup (m : List (String × List Nat)) (ip : String) (v : List Nat) :
    (setEntry m ip v).lookup ip = some v := by
  induction m with
  | nil => simp [setEntry, List.lookup]
  | cons p rest ih =>
    obtain ⟨k, w⟩ := p
    by_cases hk : k == ip
    · simp only [setEntry, hk, if_true, List.lookup]
      rw [beq_iff_eq] at hk
      simp [hk]
    · simp only [setEntry, hk, if_false, List.lookup, Bool.false_eq_true]
      simp only [beq_iff_eq] at hk
      have : (ip == k) = false := by
        rw [beq_eq_false_iff_ne]
        exact fun h => hk h.symm
      simp [this, ih]

/-- C1: for a key resolved as active with daily limit `L`, the gate counts the
usage-ledger rows of that key dated today; if the count is at least `L` the
request fails with 429 RateLimited, otherwise it succeeds and returns the key's
info (tier and daily limit).  In particular with `L` prior requests logged
today, the next request is rate limited. -/
theorem auth_gate_daily_limit (keys : List ApiKeyRow) (usage : List UsageRow)
    (today k : String) (info : KeyInfo) (hk : k ≠ "")
    (h : get_key_info keys k = some info) :
    (info.daily_limit ≤ (usageCountToday usage k today : Int) →
      get_auth keys usage today (some k) = .error ⟨429, "Rate limit exceeded"⟩) ∧
    ((usageCountToday usage k today : Int) < info.daily_limit →
      get_auth keys usage today (some k) = .ok info) := by
  constructor
  · intro hge
    simp only [get_auth, h, check_rate_limit]
    rw [if_neg (by simpa using hk), if_neg (by simp only [decide_eq_true_eq]; omega)]
  · intro hlt
    simp only [get_auth, h, check_rate_limit]
    rw [if_neg (by simpa using hk), if_pos (by simpa using hlt)]

/-- Witness for C1: a free key with daily limit 2 and two usage rows logged
today is rate-limited on its third request. -/
theorem auth_gate_daily_limit_witness :
    get_auth [⟨"sk_a", "free", "a@b.co", 2, 60, "active"⟩]
      [⟨"sk_a", "/search", 5, 200, "2026-10-12"⟩, ⟨"sk_a", "/search", 7, 200, "2026-10-12"⟩]
      "2026-10-12" (some "sk_a") = .error ⟨429, "Rate limit exceeded"⟩ :=
  (auth_gate_daily_limit
      [⟨"sk_a", "free", "a@b.co", 2, 60, "active"⟩]
      [⟨"sk_a", "/search", 5, 200, "2026-10-12"⟩, ⟨"sk_a", "/search", 7, 200, "2026-10-12"⟩]
      "2026-10-12" "sk_a" ⟨"free", "a@b.co", 2⟩ (by decide) (by decide)).1 (by decide)

/-- C2: a missing bearer token fails with 401 Unauthenticated; a token with no
active row in the key store — whether unknown or present but revoked — fails
with the very same 403 Forbidden error, so the caller cannot distinguish the
two cases. -/
theorem auth_gate_missing_and_invalid_token (keys : List ApiKeyRow)
    (usage : List UsageRow) (today k : String) (hk : k ≠ "")
    (hno : ∀ r ∈ keys, r.api_key = k → r.subscription_status ≠ "active") :
    get_auth keys usage today none = .error ⟨401, "Missing X-API-Key header"⟩ ∧
    get_auth keys usage today (some k) = .error ⟨403, "Invalid API key"⟩ := by
  refine ⟨rfl, ?_⟩
  have hinfo : get_key_info keys k = none := by
    simp only [get_key_info]
    rw [List.find?_eq_none.mpr]
    intro r hr
    simp only [Bool.and_eq_true, beq_iff_eq, not_and]
    intro hkey
    exact hno r hr hkey
  simp only [get_auth, hinfo]
  rw [if_neg (by simpa using hk)]

/-- Witness for C2: with a store holding only a revoked key, a request bearing
that very token gets the same 403 as the 401-less case gets its 401. -/
theorem auth_gate_missing_and_invalid_token_witness :
    get_auth [⟨"sk_r", "free", "r@b.co", 100, 3000, "revoked"⟩] [] "2026-10-12" none =
      .error ⟨401, "Missing X-API-Key header"⟩ ∧
    get_auth [⟨"sk_r", "free", "r@b.co", 100, 3000, "revoked"⟩] [] "2026-10-12" (some "sk_r") =
      .error ⟨403, "Invalid API key"⟩ :=
  auth_gate_missing_and_invalid_token
    [⟨"sk_r", "free", "r@b.co", 100, 3000, "revoked"⟩] [] "2026-10-12" "sk_r"
    (by decide) (by decide)

/-- C8: a registration whose email fails the `EMAIL_RE` pattern is rejected
with 400 InvalidInput before anything else happens: the key table is neither
read nor written (`dbTouched = false`), no key row is created, and even the
IP window is left untouched. -/
theorem register_invalid_email_rejected (keys : List ApiKeyRow)
    (attempts : List (String × List Nat)) (now : Nat) (email ip newKey : String)
    (h : email_match email = false) :
    register keys attempts now email ip newKey =
      ⟨.error ⟨400, "Invalid email format"⟩, keys, attempts, false⟩ := by
  simp [register, h]

/-- Witness for C8: a string without `@` is turned away untouched. -/
theorem register_invalid_email_rejected_witness :
    register [] [] 1000 "not-an-email" "1.2.3.4" "sk_new" =
      ⟨.error ⟨400, "Invalid email format"⟩, [], [], false⟩ :=
  register_invalid_email_rejected [] [] 1000 "not-an-email" "1.2.3.4" "sk_new" (by decide)

/-- C7: when an active key already exists for the email (and the request gets
past the email and IP checks), registration fails with 409 Conflict, the key
table is returned unchanged, and the pre-existing row — token, tier, limits
and active status intact — is still present, so the first token stays valid. -/
theorem register_duplicate_email_conflict (keys : List ApiKeyRow)
    (attempts : List (String × List Nat)) (now : Nat) (email ip newKey : String)
    (r : ApiKeyRow) (hvalid : email_match email = true)
    (hrate : (check_registration_rate attempts now ip).1 = true)
    (hr : r ∈ keys) (hre : r.customer_email = email)
    (hrs : r.subscription_status = "active") :
    (register keys attempts now email ip newKey).result =
      .error ⟨409,
        "An API key already exists for this email. Contact support if you need a new key."⟩ ∧
    (register keys attempts now email ip newKey).keys = keys ∧
    r ∈ (register keys attempts now email ip newKey).keys := by
  have hdup :
      keys.any (fun q => q.customer_email == email && q.subscription_status == "active") = true := by
    rw [List.any_eq_true]
    exact ⟨r, hr, by simp [hre, hrs]⟩
  refine ⟨?_, ?_, ?_⟩ <;> simp [register, hvalid, hrate, hdup, hr]

/-- Witness for C7: registering `a@b.co` twice; the second call conflicts and
the first row survives. -/
theorem register_duplicate_email_conflict_witness :
    (register [⟨"sk_1", "free", "a@b.co", 100, 3000, "active"⟩] [] 5000
        "a@b.co" "9.9.9.9" "sk_2").result =
      .error ⟨409,
        "An API key already exists for this email. Contact support if you need a new key."⟩ ∧
    (register [⟨"sk_1", "free", "a@b.co", 100, 3000, "active"⟩] [] 5000
        "a@b.co" "9.9.9.9" "sk_2").keys =
      [⟨"sk_1", "free", "a@b.co", 100, 3000, "active"⟩] ∧
    (⟨"sk_1", "free", "a@b.co", 100, 3000, "active"⟩ : ApiKeyRow) ∈
      (register [⟨"sk_1", "free", "a@b.co", 100, 3000, "active"⟩] [] 5000
        "a@b.co" "9.9.9.9" "sk_2").keys :=
  register_duplicate_email_conflict
    [⟨"sk_1", "free", "a@b.co", 100, 3000, "active"⟩] [] 5000 "a@b.co" "9.9.9.9" "sk_2"
    ⟨"sk_1", "free", "a@b.co", 100, 3000, "active"⟩
    (by decide) (by decide) (by decide) rfl rfl

/-- C10: with a syntactically valid email and the source IP below the hourly
cap, the registration consumes one slot of the in-memory window — whatever
happens afterwards (Conflict, insert collision or success), the attempts dict
ends up holding the pruned window plus the current timestamp for that IP. -/
theorem registration_slot_consumed (keys : List ApiKeyRow)
    (attempts : List (String × List Nat)) (now : Nat) (email ip newKey : String)
    (hvalid : email_match email = true)
    (hbelow : (pruneWindow now ((attempts.lookup ip).getD [])).length <
      MAX_REGISTRATIONS_PER_IP) :
    (register keys attempts now email ip newKey).attempts.lookup ip =
      some (pruneWindow now ((attempts.lookup ip).getD []) ++ [now]) := by
  have hck : check_registration_rate attempts now ip =
      (true, setEntry attempts ip (pruneWindow now ((attempts.lookup ip).getD []) ++ [now])) := by
    simp only [check_registration_rate]
    rw [if_neg (by omega)]
  simp only [register, hvalid, if_true, hck]
  split
  · exact setEntry_lookup _ _ _
  · split
    · exact setEntry_lookup _ _ _
    · exact setEntry_lookup _ _ _

/-- Witness for C10: a registration that ends in 409 Conflict still consumed
the IP's slot. -/
theorem registration_slot_consumed_witness :
    (register [⟨"sk_1", "free", "a@b.co", 100, 3000, "active"⟩] [] 5000
        "a@b.co" "8.8.8.8" "sk_2").result =
      .error ⟨409,
        "An API key already exists for this email. Contact support if you need a new key."⟩ ∧
    (register [⟨"sk_1", "free", "a@b.co", 100, 3000, "active"⟩] [] 5000
        "a@b.co" "8.8.8.8" "sk_2").attempts.lookup "8.8.8.8" = some [5000] := by
  constructor
  · rfl
  · exact registration_slot_consumed
      [⟨"sk_1", "free", "a@b.co", 100, 3000, "active"⟩] [] 5000 "a@b.co" "8.8.8.8" "sk_2"
      (by decide) (by decide)

/-- C5: the summary's revenue gap is always total potential minus total
monthly; an empty store yields all zeros rather than an error; and a store
holding exactly the stream created with monthly 500, potential 5000 and growth
rate 10.5 (the rational 21/2) reports a gap of 4500 and an average growth rate
of 10.5. -/
theorem revenue_summary_correct :
    (∀ streams : List RevenueStreamRow,
      (get_revenue_summary streams).revenue_gap =
        (get_revenue_summary streams).total_potential_revenue -
          (get_revenue_summary streams).total_monthly_revenue) ∧
    get_revenue_summary [] = ⟨0, 0, 0, 0, 0⟩ ∧
    (∀ (name : String) (notes : Option String) (sid : Nat)
        (store : List RevenueStreamRow),
      create_revenue_stream [] ⟨name, "api", 500, 5000, (21 / 2 : Rat), notes⟩ =
        .ok (sid, store) →
      (get_revenue_summary store).revenue_gap = 4500 ∧
      (get_revenue_summary store).avg_growth_rate = (21 / 2 : Rat)) := by
  refine ⟨fun streams => rfl, by simp [get_revenue_summary], ?_⟩
  intro name notes sid store h
  simp only [create_revenue_stream] at h
  split at h
  · simp only [Except.ok.injEq, Prod.mk.injEq] at h
    obtain ⟨-, hstore⟩ := h
    subst hstore
    constructor
    · simp [get_revenue_summary]
      norm_num
    · simp only [get_revenue_summary, List.map_cons, List.map_nil, List.sum_cons,
        List.sum_nil, List.length_cons, List.length_nil]
      norm_num
  · exact absurd h (by simp)

/-- Witness for C5: the single-row scenario of the spec, computed concretely. -/
theorem revenue_summary_correct_witness :
    (create_revenue_stream []
        ⟨"AIDAN Brain API", "api", 500, 5000, (21 / 2 : Rat), some "x"⟩ =
      .ok (1, [⟨1, "AIDAN Brain API", "api", 500, 5000, (21 / 2 : Rat), some "x"⟩])) ∧
    (get_revenue_summary
        [⟨1, "AIDAN Brain API", "api", 500, 5000, (21 / 2 : Rat), some "x"⟩]).revenue_gap =
      4500 ∧
    (get_revenue_summary
        [⟨1, "AIDAN Brain API", "api", 500, 5000, (21 / 2 : Rat), some "x"⟩]).avg_growth_rate =
      (21 / 2 : Rat) :=
  ⟨rfl,
   revenue_summary_correct.2.2 "AIDAN Brain API" (some "x") 1
     [⟨1, "AIDAN Brain API", "api", 500, 5000, (21 / 2 : Rat), some "x"⟩] rfl⟩

/-- C6: a partial update supplying only `growth_rate` succeeds on an existing
id and leaves every row's `name`, `category`, `monthly_revenue`,
`potential_monthly` and `notes` untouched; only the matching row's
`growth_rate` changes, to the supplied value. -/
theorem update_growth_rate_only_frame (streams streams' : List RevenueStreamRow)
    (i : Nat) (g : Rat)
    (h : update_revenue_stream streams i ⟨none, none, some g, none⟩ = .ok streams') :
    streams'.length = streams.length ∧
    ∀ (j : Nat) (r r' : RevenueStreamRow),
      streams[j]? = some r → streams'[j]? = some r' →
      r'.id = r.id ∧ r'.name = r.name ∧ r'.category = r.category ∧
      r'.monthly_revenue = r.monthly_revenue ∧
      r'.potential_monthly = r.potential_monthly ∧
      r'.notes = r.notes ∧
      r'.growth_rate = (if r.id = i then g else r.growth_rate) := by
  rw [update_revenue_stream, if_neg (by simp)] at h
  by_cases hex : streams.any (fun r => r.id == i)
  · rw [if_pos hex] at h
    simp only [Except.ok.injEq] at h
    subst h
    refine ⟨streams.length_map _, ?_⟩
    intro j r r' hr hr'
    rw [List.getElem?_map, hr, Option.map_some'] at hr'
    obtain rfl :
        (if r.id == i then applyUpdate ⟨none, none, some g, none⟩ r else r) = r' :=
      Option.some.inj hr'
    by_cases hid : r.id = i
    · simp [applyUpdate, hid]
    · have hne : (r.id == i) = false := by simp [hid]
      simp [hne, hid]
  · rw [if_neg hex] at h
    exact absurd h (by simp)

/-- Witness for C6: updating only the growth rate of row 1 in a two-row store
keeps everything else, including row 2, intact. -/
theorem update_growth_rate_only_frame_witness :
    (update_revenue_stream
        [⟨1, "A", "api", 500, 5000, 10, some "n"⟩, ⟨2, "B", "api", 7, 8, 9, none⟩] 1
        ⟨none, none, some 12, none⟩ =
      .ok [⟨1, "A", "api", 500, 5000, 12, some "n"⟩, ⟨2, "B", "api", 7, 8, 9, none⟩]) ∧
    (List.length
        [(⟨1, "A", "api", 500, 5000, 12, some "n"⟩ : RevenueStreamRow),
          ⟨2, "B", "api", 7, 8, 9, none⟩] =
      List.length
        [(⟨1, "A", "api", 500, 5000, 10, some "n"⟩ : RevenueStreamRow),
          ⟨2, "B", "api", 7, 8, 9, none⟩]) :=
  ⟨by decide,
   (update_growth_rate_only_frame
      [⟨1, "A", "api", 500, 5000, 10, some "n"⟩, ⟨2, "B", "api", 7, 8, 9, none⟩]
      [⟨1, "A", "api", 500, 5000, 12, some "n"⟩, ⟨2, "B", "api", 7, 8, 9, none⟩]
      1 12 (by decide)).1⟩

/-- C4: a webhook request whose payload fails signature verification is
rejected with 400 "Invalid signature" and the database state is returned
exactly as it was — no API key minted, no subscription row inserted. -/
theorem webhook_invalid_signature_no_mutation (cfg : StripeConfig)
    (st : WebhookState) (s key1 key2 : String)
    (hc : cfg.configured = true) (hs : s ≠ "") :
    stripe_webhook cfg st (some s) .invalidSignature key1 key2 =
      (.error ⟨400, "Invalid signature"⟩, st) := by
  simp [stripe_webhook, hc, hs]

/-- Witness for C4: a concrete badly-signed event leaves an empty store empty. -/
theorem webhook_invalid_signature_no_mutation_witness :
    stripe_webhook ⟨true, "pd", "pb", "pp", "pr"⟩ ⟨[], []⟩ (some "sig")
        .invalidSignature "k1" "k2" =
      (.error ⟨400, "Invalid signature"⟩, ⟨[], []⟩) :=
  webhook_invalid_signature_no_mutation ⟨true, "pd", "pb", "pp", "pr"⟩ ⟨[], []⟩
    "sig" "k1" "k2" rfl (by decide)

/-- Counterexample to C3 as stated: when both minted tokens already exist in
the key store, the retry's `IntegrityError` is not caught, so the sender gets
a 500 — the event is NOT acknowledged with a success response. -/
theorem webhook_double_collision_not_acknowledged :
    (stripe_webhook doubleCollisionCfg doubleCollisionState (some "sig")
        (.valid checkoutEv) "k1" "k2").1 =
      .error ⟨500, "Internal Server Error"⟩ ∧
    ¬ ∃ body, (stripe_webhook doubleCollisionCfg doubleCollisionState (some "sig")
        (.valid checkoutEv) "k1" "k2").1 = Except.ok body := by
  refine ⟨rfl, ?_⟩
  rintro ⟨body, hb⟩
  rw [show (stripe_webhook doubleCollisionCfg doubleCollisionState (some "sig")
      (.valid checkoutEv) "k1" "k2").1 =
      Except.error ⟨500, "Internal Server Error"⟩ from rfl] at hb
  exact Except.noConfusion hb

/-- C3 (amended): on a verified checkout-completed event whose first insert
hits a uniqueness collision, the handler mints a second token and retries the
insert exactly once — appending exactly one row under the second token when it
is fresh; if the retry collides as well, the error propagates and the sender
receives a 500 internal server error with the store unchanged, not a success
acknowledgment. -/
theorem webhook_mint_retry_once (cfg : StripeConfig) (st : WebhookState)
    (s : String) (ev : StripeEvent) (key1 key2 : String)
    (hc : cfg.configured = true) (hs : s ≠ "")
    (hty : ev.type = "checkout.session.completed")
    (hnd : (resolve_price_id ev.session == some cfg.dashboard_price) = false)
    (hk1 : st.api_keys.any (fun r => r.api_key == key1) = true) :
    (st.api_keys.any (fun r => r.api_key == key2) = false →
      stripe_webhook cfg st (some s) (.valid ev) key1 key2 =
        (.ok "received",
         { st with api_keys := st.api_keys ++
             [⟨key2, price_to_tier cfg (resolve_price_id ev.session),
               ev.session.customer_email,
               tier_daily_limit (price_to_tier cfg (resolve_price_id ev.session)),
               tier_daily_limit (price_to_tier cfg (resolve_price_id ev.session)) * 30,
               "active"⟩] })) ∧
    (st.api_keys.any (fun r => r.api_key == key2) = true →
      stripe_webhook cfg st (some s) (.valid ev) key1 key2 =
        (.error ⟨500, "Internal Server Error"⟩, st)) := by
  constructor <;> intro h2 <;> simp [stripe_webhook, hc, hs, hty, hnd, hk1, h2]

/-- Witness for C3 (amended): the concrete double-collision input from the
counterexample scenario indeed yields the 500 with the store untouched. -/
theorem webhook_mint_retry_once_witness :
    stripe_webhook doubleCollisionCfg doubleCollisionState (some "sig")
        (.valid checkoutEv) "k1" "k2" =
      (.error ⟨500, "Internal Server Error"⟩, doubleCollisionState) :=
  (webhook_mint_retry_once doubleCollisionCfg doubleCollisionState "sig" checkoutEv
    "k1" "k2" rfl (by decide) rfl (by decide) (by decide)).2 (by decide)

/-- Membership is preserved backwards through one insertion step. -/
theorem mem_insertVolDesc {a r : MarketRow} {l : List MarketRow}
    (h : a ∈ insertVolDesc r l) : a = r ∨ a ∈ l := by
  induction l with
  | nil => simpa [insertVolDesc] using h
  | cons x xs ih =>
    rw [insertVolDesc] at h
    split at h
    · rcases List.mem_cons.mp h with h' | h'
      · exact Or.inl h'
      · exact Or.inr h'
    · rcases List.mem_cons.mp h with h' | h'
      · exact Or.inr (by simp [h'])
      · rcases ih h' with h'' | h''
        · exact Or.inl h''
        · exact Or.inr (List.mem_cons_of_mem _ h'')

/-- The volume sort permutes but never invents rows. -/
theorem mem_sortVolDesc {a : MarketRow} {l : List MarketRow}
    (h : a ∈ sortVolDesc l) : a ∈ l := by
  induction l with
  | nil => rw [sortVolDesc] at h; exact absurd h (List.not_mem_nil a)
  | cons x xs ih =>
    rw [sortVolDesc] at h
    rcases mem_insertVolDesc h with h' | h'
    · simp [h']
    · exact List.mem_cons_of_mem _ (ih h')

/-- C9: with `active_only = true`, every row the listing returns has stored
active flag `1`; a row whose flag is false (`0`) is never returned, whatever
the limit and category parameters are. -/
theorem markets_active_only_filter (rows : List MarketRow) (lim : Int)
    (category : Option String) (r : MarketRow)
    (h : r ∈ get_polymarket_markets rows lim category true) :
    r.active = 1 := by
  have hmem : r ∈ sortVolDesc (rows.filter (marketPred category true)) := by
    simp only [get_polymarket_markets] at h
    split at h
    · exact h
    · exact List.mem_of_mem_take h
  have hf : r ∈ rows.filter (marketPred category true) := mem_sortVolDesc hmem
  have hpred : marketPred category true r = true := (List.mem_filter.mp hf).2
  simp only [marketPred, Bool.not_true, Bool.false_or, Bool.and_eq_true,
    beq_iff_eq] at hpred
  exact hpred.1

/-- Witness for C9: a store with one active and one inactive market; the
returned row is the active one. -/
theorem markets_active_only_filter_witness :
    (⟨"m1", "q1", "sports", 5, 1, none, none⟩ : MarketRow) ∈
      get_polymarket_markets
        [⟨"m1", "q1", "sports", 5, 1, none, none⟩,
         ⟨"m2", "q2", "sports", 9, 0, none, none⟩] 50 none true ∧
    (⟨"m1", "q1", "sports", 5, 1, none, none⟩ : MarketRow).active = 1 :=
  ⟨by decide,
   markets_active_only_filter
     [⟨"m1", "q1", "sports", 5, 1, none, none⟩,
      ⟨"m2", "q2", "sports", 9, 0, none, none⟩] 50 none
     ⟨"m1", "q1", "sports", 5, 1, none, none⟩ (by decide)⟩

end RevenueApi
